import Mathlib

/-!
# dbcviewer: `ChannelObserverFrame` constructor

Shallow embedding of `src/dbcviewer/src/channelobserverframe.cpp`
(`ChannelObserverFrame::ChannelObserverFrame`, lines 12-48).

* A channel handle of the observer list is `Option Channel`: `none` is the
  null handle, `some c` a channel with its `Name()`, `Unit()` and
  `NofSamples()`.
* `std::string` and `wxString` are both Lean `String`s (text); the channel
  strings are taken to be well-formed UTF-8, on which `wxString::FromUTF8`
  keeps the text.
* `size_t` values are `Nat`: the constructor only compares and copies them,
  it does no arithmetic on them.
* The widget calls of the constructor are state transformers on `State`;
  each one also records itself in `State.trace`, a history of the calls in
  program order that is used to state ordering properties.
-/

namespace dbc.viewer

/-! ## Data model -/

/-- A present channel: the three getters the constructor reads. -/
structure Channel where
  Name : String
  Unit : String
  NofSamples : Nat
  deriving DecidableEq, Repr

/-- The observer list: an ordered collection of channel handles, each of
which may be null (`none`). -/
abbrev ChannelObserverList := List (Option Channel)

/-- Width argument `wxLIST_AUTOSIZE_USEHEADER` of the list control. -/
def wxLIST_AUTOSIZE_USEHEADER : Int := -2

/-- Width a column has when `AppendColumn` is called without a width. -/
def wxLIST_DEFAULT_COL_WIDTH : Int := -1

/-- One column of the list view: its heading and the width last requested
for it. -/
structure Column where
  heading : String
  width : Int
  deriving DecidableEq, Repr

/-- The list view widget: its columns, its (virtual) item count and the
observer list it has been handed. -/
structure ChannelObserverListView where
  columns : List Column
  item_count : Nat
  observer_list_ : Option ChannelObserverList
  deriving DecidableEq, Repr

/-- The frame under construction: the title given to the base class, the
icon and the list view member. -/
structure ChannelObserverFrame where
  title : String
  icon : Option String
  list_view_ : ChannelObserverListView
  deriving DecidableEq, Repr

/-- A call made by the constructor on the frame or on its list view. -/
inductive Call where
  | SetIcon (icon : String)
  | NewListView
  | AppendColumn (heading : String)
  | ObserverList
  | SetItemCount (count : Nat)
  | SetColumnWidth (col : Nat) (width : Int)
  deriving DecidableEq, Repr

/-- Program state of the constructor: the caller's observer list, the frame,
and the history of calls made so far. -/
structure State where
  observer_list : ChannelObserverList
  frame : ChannelObserverFrame
  trace : List Call
  deriving DecidableEq, Repr

/-! ## Toolkit and list-view operations -/

/-- Modelled from the spec: `wxString::FromUTF8` of the windowing toolkit,
which is not part of the source file. On the well-formed text a Lean
`String` holds it keeps the text. -/
def FromUTF8 (s : String) : String := s

/-- Modelled from the spec: the freshly created list view (the constructor of
`ChannelObserverListView` is not part of the source file): no columns, no
rows, no observer list. -/
def newListView : ChannelObserverListView :=
  { columns := [], item_count := 0, observer_list_ := none }

/-- Modelled from the spec: icon assignment of the windowing toolkit
(`wxFrame::SetIcon`), which is not part of the source file. -/
def SetIcon (icon : String) (st : State) : State :=
  { st with
    frame := { st.frame with icon := some icon }
    trace := st.trace ++ [Call.SetIcon icon] }

/-- Line 22: `list_view_ = new ChannelObserverListView(this)`. -/
def NewListView (st : State) : State :=
  { st with
    frame := { st.frame with list_view_ := newListView }
    trace := st.trace ++ [Call.NewListView] }

/-- Modelled from the spec: column append of the list-view toolkit
(`wxListCtrl::AppendColumn`), which is not part of the source file: one more
column, after the existing ones, with the given heading. -/
def AppendColumn (heading : String) (st : State) : State :=
  { st with
    frame := { st.frame with
      list_view_ := { st.frame.list_view_ with
        columns := st.frame.list_view_.columns ++
          [{ heading := heading, width := wxLIST_DEFAULT_COL_WIDTH }] } }
    trace := st.trace ++ [Call.AppendColumn heading] }

/-- Modelled from the spec: `ChannelObserverListView::ObserverList`, which is
not part of the source file. The list view retains a reference to the
observer list for later row rendering; the list itself is left as it is. -/
def ObserverList (st : State) : State :=
  { st with
    frame := { st.frame with
      list_view_ := { st.frame.list_view_ with
        observer_list_ := some st.observer_list } }
    trace := st.trace ++ [Call.ObserverList] }

/-- Modelled from the spec: item-count setting of the list-view toolkit
(`wxListCtrl::SetItemCount`), which is not part of the source file. The count
is the value of the caller's argument (`samples`, a `size_t`). -/
def SetItemCount (count : Nat) (st : State) : State :=
  { st with
    frame := { st.frame with
      list_view_ := { st.frame.list_view_ with item_count := count } }
    trace := st.trace ++ [Call.SetItemCount count] }

/-- Modelled from the spec: `wxListCtrl::GetColumnCount` of the list-view
toolkit, which is not part of the source file. -/
def GetColumnCount (st : State) : Nat :=
  st.frame.list_view_.columns.length

/-- Set the width of the column at index `col`, leaving the others. -/
def setWidthAt : List Column → Nat → Int → List Column
  | [], _, _ => []
  | c :: cs, 0, w => { c with width := w } :: cs
  | c :: cs, col + 1, w => c :: setWidthAt cs col w

/-- Modelled from the spec: column width setting of the list-view toolkit
(`wxListCtrl::SetColumnWidth`), which is not part of the source file: the
column at index `col` gets the requested width. -/
def SetColumnWidth (col : Nat) (width : Int) (st : State) : State :=
  { st with
    frame := { st.frame with
      list_view_ := { st.frame.list_view_ with
        columns := setWidthAt st.frame.list_view_.columns col width } }
    trace := st.trace ++ [Call.SetColumnWidth col width] }

/-! ## The constructor -/

/-- Lines 26-34: the text streamed into `label` for one channel handle. -/
def columnLabel (channel : Option Channel) : String :=
  let label : String := ""
  match channel with
  | none => label ++ "Alien"
  | some ch =>
    let label := label ++ ch.Name
    let unit := ch.Unit
    if !unit.isEmpty then label ++ " [" ++ unit ++ "]" else label

/-- Lines 35-37: the running maximum `samples` after one channel handle. -/
def updateSamples (samples : Nat) (channel : Option Channel) : Nat :=
  match channel with
  | none => samples
  | some ch => if samples < ch.NofSamples then ch.NofSamples else samples

/-- Lines 26-39: one iteration of the range-for loop over the observer list,
on the local `samples` and the program state. -/
def loopBody (acc : Nat × State) (channel : Option Channel) : Nat × State :=
  (updateSamples acc.1 channel, AppendColumn (FromUTF8 (columnLabel channel)) acc.2)

/-- Lines 24-40: `samples = 0` and the range-for loop over `*observer_list`,
the label-and-maximum pass. -/
def labelPass (st : State) : Nat × State :=
  st.observer_list.foldl loopBody (0, st)

/-- Lines 44-46: `for (int col = 0; col < GetColumnCount(); ++col)`, started
at `col`. `col` never exceeds the column count, itself an `int`, so it is a
`Nat` here. The first argument bounds the number of iterations; the
constructor passes the column count, with which the loop always leaves
through its condition (`autosizeLoop_fuel`). -/
def autosizeLoop : Nat → Nat → State → State
  | 0, _, st => st
  | fuel + 1, col, st =>
    if col < GetColumnCount st then
      autosizeLoop fuel (col + 1) (SetColumnWidth col wxLIST_AUTOSIZE_USEHEADER st)
    else st

/-- State on entry to the constructor body: the caller's observer list, the
frame as the base class left it (title set, no icon), no calls made. -/
def entry (observer_list : ChannelObserverList) (title : String) : State :=
  { observer_list := observer_list
    frame := { title := title, icon := none, list_view_ := newListView }
    trace := [] }

/-- State after line 43: icon, list view, "Sample" column, the
label-and-maximum pass, `ObserverList` and `SetItemCount`. -/
def beforeAutosize (observer_list : ChannelObserverList) (title : String) : State :=
  let st := entry observer_list title
  let st := SetIcon "sub" st
  let st := NewListView st
  let st := AppendColumn (FromUTF8 "Sample") st
  let (samples, st) := labelPass st
  let st := ObserverList st
  SetItemCount samples st

/-- `ChannelObserverFrame::ChannelObserverFrame` (lines 12-48). -/
def ChannelObserverFrame.ctor (observer_list : ChannelObserverList)
    (title : String) : State :=
  let st := beforeAutosize observer_list title
  autosizeLoop (GetColumnCount st) 0 st

/-- Line 42 with what the source file cannot settle taken as a parameter:
`ChannelObserverListView::ObserverList` receives the caller's observer list
by non-const reference, and `leaves` is what the call leaves in the caller's
list. Modelled from the spec: the list view retains the list it is handed. -/
def ObserverListWith (leaves : ChannelObserverList → ChannelObserverList)
    (st : State) : State :=
  { observer_list := leaves st.observer_list
    frame := { st.frame with
      list_view_ := { st.frame.list_view_ with
        observer_list_ := some st.observer_list } }
    trace := st.trace ++ [Call.ObserverList] }

/-- State after line 43, with `ObserverListWith leaves` at line 42. -/
def beforeAutosizeWith (leaves : ChannelObserverList → ChannelObserverList)
    (observer_list : ChannelObserverList) (title : String) : State :=
  let st := entry observer_list title
  let st := SetIcon "sub" st
  let st := NewListView st
  let st := AppendColumn (FromUTF8 "Sample") st
  let (samples, st) := labelPass st
  let st := ObserverListWith leaves st
  SetItemCount samples st

/-- The constructor (lines 12-48) with `ObserverListWith leaves` at line 42. -/
def ChannelObserverFrame.ctorWith (leaves : ChannelObserverList → ChannelObserverList)
    (observer_list : ChannelObserverList) (title : String) : State :=
  let st := beforeAutosizeWith leaves observer_list title
  autosizeLoop (GetColumnCount st) 0 st

/-! ## Observations on the constructed frame -/

/-- Headings of the list view's columns, in column order. -/
def columnLabels (st : State) : List String :=
  st.frame.list_view_.columns.map Column.heading

/-- Widths requested for the list view's columns, in column order. -/
def columnWidths (st : State) : List Int :=
  st.frame.list_view_.columns.map Column.width

/-- Row count of the list view. -/
def rowCount (st : State) : Nat :=
  st.frame.list_view_.item_count

/-- Arguments of the `SetItemCount` calls in a call history. -/
def itemCountArgs : List Call → List Nat
  | [] => []
  | Call.SetItemCount n :: cs => n :: itemCountArgs cs
  | _ :: cs => itemCountArgs cs

/-- Headings of the `AppendColumn` calls in a call history. -/
def appendedHeadings : List Call → List String
  | [] => []
  | Call.AppendColumn h :: cs => h :: appendedHeadings cs
  | _ :: cs => appendedHeadings cs

/-- The present channels of an observer list. -/
def presentChannels (observer_list : ChannelObserverList) : List Channel :=
  observer_list.filterMap id

/-- Maximum of `NofSamples()` over the present channels of the list, as the
specification words it; 0 when there is none. -/
def maxNofSamples (observer_list : ChannelObserverList) : Nat :=
  ((presentChannels observer_list).map Channel.NofSamples).foldr max 0

/-- Everything but the list view's columns (headings and widths) and row
count is the same in `post` as in `pre`. -/
def OnlyColumnsAndRowsChanged (pre post : State) : Prop :=
  post.observer_list = pre.observer_list ∧
  post.frame.title = pre.frame.title ∧
  post.frame.icon = pre.frame.icon ∧
  post.frame.list_view_.observer_list_ = pre.frame.list_view_.observer_list_

/-- Label of the column of a channel handle as the specification words it:
"Alien" for an absent channel, the name for a present channel with an empty
unit, and the name, " [", the unit and "]" for one with a non-empty unit. -/
def specLabel : Option Channel → String
  | none => "Alien"
  | some ch => if ch.Unit = "" then ch.Name else ch.Name ++ " [" ++ ch.Unit ++ "]"

/-- The example list of the specification. -/
def exampleList : ChannelObserverList :=
  [none, some ⟨"RPM", "", 10⟩, some ⟨"Temp", "C", 25⟩]

/-! ## Lemmas on the loops -/

/-- Columns appended for the channels of a list. -/
def appendedColumns (l : ChannelObserverList) : List Column :=
  l.map fun c => { heading := columnLabel c, width := wxLIST_DEFAULT_COL_WIDTH }

/-- Calls recorded for the channels of a list. -/
def appendCalls (l : ChannelObserverList) : List Call :=
  l.map fun c => Call.AppendColumn (columnLabel c)

/-- Calls recorded by the auto-size loop over `n` columns from `col` on. -/
def widthCalls (col n : Nat) : List Call :=
  (List.range' col n).map fun c => Call.SetColumnWidth c wxLIST_AUTOSIZE_USEHEADER

/-- A column with its width set to auto-size-to-header. -/
def autosized (c : Column) : Column :=
  { c with width := wxLIST_AUTOSIZE_USEHEADER }

theorem foldl_loopBody (l : ChannelObserverList) (s : Nat) (st : State) :
    l.foldl loopBody (s, st) =
      (l.foldl updateSamples s,
        { observer_list := st.observer_list
          frame :=
            { title := st.frame.title
              icon := st.frame.icon
              list_view_ :=
                { columns := st.frame.list_view_.columns ++ appendedColumns l
                  item_count := st.frame.list_view_.item_count
                  observer_list_ := st.frame.list_view_.observer_list_ } }
          trace := st.trace ++ appendCalls l }) := by
  induction l generalizing s st with
  | nil => simp [appendedColumns, appendCalls]
  | cons c l ih =>
    rw [List.foldl_cons, loopBody, ih]
    simp [AppendColumn, FromUTF8, appendedColumns, appendCalls]

theorem length_setWidthAt (cs : List Column) (col : Nat) (w : Int) :
    (setWidthAt cs col w).length = cs.length := by
  induction cs generalizing col with
  | nil => simp [setWidthAt]
  | cons c cs ih =>
    cases col with
    | zero => simp [setWidthAt]
    | succ k => simp [setWidthAt, ih]

theorem setWidthAt_step (cs : List Column) (col : Nat) (h : col < cs.length) :
    (setWidthAt cs col wxLIST_AUTOSIZE_USEHEADER).take (col + 1) ++
        ((setWidthAt cs col wxLIST_AUTOSIZE_USEHEADER).drop (col + 1)).map autosized =
      cs.take col ++ (cs.drop col).map autosized := by
  induction cs generalizing col with
  | nil => simp at h
  | cons c cs ih =>
    cases col with
    | zero => simp [setWidthAt, autosized]
    | succ k =>
      have hk : k < cs.length := by simpa using h
      simpa [setWidthAt] using ih k hk

theorem autosizeLoop_eq (fuel col : Nat) (st : State)
    (h : GetColumnCount st - col ≤ fuel) :
    autosizeLoop fuel col st =
      { observer_list := st.observer_list
        frame :=
          { title := st.frame.title
            icon := st.frame.icon
            list_view_ :=
              { columns := st.frame.list_view_.columns.take col ++
                  (st.frame.list_view_.columns.drop col).map autosized
                item_count := st.frame.list_view_.item_count
                observer_list_ := st.frame.list_view_.observer_list_ } }
        trace := st.trace ++ widthCalls col (GetColumnCount st - col) } := by
  have done : ∀ (c : Nat) (s : State), ¬ c < GetColumnCount s →
      s = { observer_list := s.observer_list
            frame :=
              { title := s.frame.title
                icon := s.frame.icon
                list_view_ :=
                  { columns := s.frame.list_view_.columns.take c ++
                      (s.frame.list_view_.columns.drop c).map autosized
                    item_count := s.frame.list_view_.item_count
                    observer_list_ := s.frame.list_view_.observer_list_ } }
            trace := s.trace ++ widthCalls c (GetColumnCount s - c) } := by
    intro c s hc
    have hle : s.frame.list_view_.columns.length ≤ c := by
      simpa [GetColumnCount] using hc
    have h0 : GetColumnCount s - c = 0 := by
      simp only [GetColumnCount]; omega
    rw [h0, List.take_of_length_le hle, List.drop_eq_nil_of_le hle]
    simp [widthCalls]
  induction fuel generalizing col st with
  | zero =>
    have hc : ¬ col < GetColumnCount st := by omega
    simpa [autosizeLoop] using done col st hc
  | succ fuel ih =>
    by_cases hc : col < GetColumnCount st
    · have hlen : GetColumnCount (SetColumnWidth col wxLIST_AUTOSIZE_USEHEADER st) =
          GetColumnCount st := by
        simp [GetColumnCount, SetColumnWidth, length_setWidthAt]
      have hfuel : GetColumnCount (SetColumnWidth col wxLIST_AUTOSIZE_USEHEADER st) -
          (col + 1) ≤ fuel := by omega
      have hstep := setWidthAt_step st.frame.list_view_.columns col
        (by simpa [GetColumnCount] using hc)
      have hn : GetColumnCount st - col = (GetColumnCount st - (col + 1)) + 1 := by omega
      rw [autosizeLoop, if_pos hc, ih (col + 1) _ hfuel, hlen, hn]
      simp only [SetColumnWidth, hstep, widthCalls, List.range'_succ, List.map_cons,
        List.append_assoc, List.singleton_append]
    · rw [autosizeLoop, if_neg hc]
      exact done col st hc

/-- The bound the constructor passes to the auto-size loop is enough: with
any larger bound the loop ends in the same state, so it leaves through its
condition `col < GetColumnCount()`. -/
theorem autosizeLoop_fuel (fuel : Nat) (st : State) (h : GetColumnCount st ≤ fuel) :
    autosizeLoop fuel 0 st = autosizeLoop (GetColumnCount st) 0 st := by
  rw [autosizeLoop_eq fuel 0 st (by omega),
    autosizeLoop_eq (GetColumnCount st) 0 st (by omega)]

/-- Closed form of the constructed state. -/
theorem ctor_eq (l : ChannelObserverList) (title : String) :
    ChannelObserverFrame.ctor l title =
      { observer_list := l
        frame :=
          { title := title
            icon := some "sub"
            list_view_ :=
              { columns := (({ heading := "Sample", width := wxLIST_DEFAULT_COL_WIDTH } : Column)
                  :: appendedColumns l).map autosized
                item_count := l.foldl updateSamples 0
                observer_list_ := some l } }
        trace := [Call.SetIcon "sub", Call.NewListView, Call.AppendColumn "Sample"] ++
          appendCalls l ++ [Call.ObserverList, Call.SetItemCount (l.foldl updateSamples 0)] ++
          widthCalls 0 (l.length + 1) } := by
  have hb : beforeAutosize l title =
      { observer_list := l
        frame :=
          { title := title
            icon := some "sub"
            list_view_ :=
              { columns := ({ heading := "Sample", width := wxLIST_DEFAULT_COL_WIDTH } : Column)
                  :: appendedColumns l
                item_count := l.foldl updateSamples 0
                observer_list_ := some l } }
        trace := [Call.SetIcon "sub", Call.NewListView, Call.AppendColumn "Sample"] ++
          appendCalls l ++ [Call.ObserverList, Call.SetItemCount (l.foldl updateSamples 0)] } := by
    simp [beforeAutosize, labelPass, entry, SetIcon, NewListView, AppendColumn, FromUTF8,
      foldl_loopBody, ObserverList, SetItemCount, newListView]
  rw [ChannelObserverFrame.ctor, autosizeLoop_eq _ 0 _ (by omega), hb]
  simp [GetColumnCount, appendedColumns]

theorem maxNofSamples_none (l : ChannelObserverList) :
    maxNofSamples (none :: l) = maxNofSamples l := by
  simp [maxNofSamples, presentChannels]

theorem maxNofSamples_some (ch : Channel) (l : ChannelObserverList) :
    maxNofSamples (some ch :: l) = max ch.NofSamples (maxNofSamples l) := by
  simp [maxNofSamples, presentChannels]

theorem foldl_updateSamples (l : ChannelObserverList) (s : Nat) :
    l.foldl updateSamples s = max s (maxNofSamples l) := by
  induction l generalizing s with
  | nil => simp [maxNofSamples, presentChannels]
  | cons c l ih =>
    cases c with
    | none => simp [updateSamples, ih, maxNofSamples_none]
    | some ch =>
      rw [List.foldl_cons, ih, maxNofSamples_some]
      simp only [updateSamples]
      split <;> omega

theorem maxNofSamples_perm {l₁ l₂ : ChannelObserverList} (h : l₁.Perm l₂) :
    maxNofSamples l₁ = maxNofSamples l₂ := by
  induction h with
  | nil => rfl
  | cons c _ ih =>
    cases c with
    | none => simpa [maxNofSamples_none] using ih
    | some ch => simp [maxNofSamples_some, ih]
  | swap a b l =>
    cases a <;> cases b
    all_goals simp only [maxNofSamples_none, maxNofSamples_some]
    all_goals omega
  | trans _ _ ih₁ ih₂ => exact ih₁.trans ih₂

theorem maxNofSamples_replicate_none (n : Nat) :
    maxNofSamples (List.replicate n none) = 0 := by
  induction n with
  | zero => rfl
  | succ n ih => simpa [List.replicate_succ, maxNofSamples_none] using ih

theorem maxNofSamples_eraseIdx (l : ChannelObserverList) (i : Nat)
    (h : l[i]? = some none) : maxNofSamples (l.eraseIdx i) = maxNofSamples l := by
  induction l generalizing i with
  | nil => simp at h
  | cons c l ih =>
    cases i with
    | zero =>
      have hc : c = none := by simpa using h
      simp [hc, maxNofSamples_none]
    | succ k =>
      have hk : l[k]? = some none := by simpa using h
      cases c with
      | none => simpa [maxNofSamples_none] using ih k hk
      | some ch => simp [maxNofSamples_some, ih k hk]

theorem columnLabel_some (ch : Channel) :
    columnLabel (some ch) =
      if ch.Unit = "" then ch.Name else ch.Name ++ " [" ++ ch.Unit ++ "]" := by
  by_cases hu : ch.Unit = ""
  · simp [columnLabel, hu, String.isEmpty]
  · have he : ch.Unit.isEmpty = false := by
      cases hb : ch.Unit.isEmpty with
      | false => rfl
      | true => exact absurd ((String.isEmpty_iff _).1 hb) hu
    simp [columnLabel, hu, he]

theorem columnLabels_ctor (l : ChannelObserverList) (title : String) :
    columnLabels (ChannelObserverFrame.ctor l title) = "Sample" :: l.map columnLabel := by
  simp [ctor_eq, columnLabels, appendedColumns, autosized, Function.comp_def]

theorem rowCount_ctor (l : ChannelObserverList) (title : String) :
    rowCount (ChannelObserverFrame.ctor l title) = maxNofSamples l := by
  simp [ctor_eq, rowCount, foldl_updateSamples]

theorem appendedHeadings_append (a b : List Call) :
    appendedHeadings (a ++ b) = appendedHeadings a ++ appendedHeadings b := by
  induction a with
  | nil => rfl
  | cons c a ih => cases c <;> simp [appendedHeadings, ih]

theorem itemCountArgs_append (a b : List Call) :
    itemCountArgs (a ++ b) = itemCountArgs a ++ itemCountArgs b := by
  induction a with
  | nil => rfl
  | cons c a ih => cases c <;> simp [itemCountArgs, ih]

theorem appendedHeadings_appendCalls (l : ChannelObserverList) :
    appendedHeadings (appendCalls l) = l.map columnLabel := by
  induction l with
  | nil => rfl
  | cons c l ih => simpa [appendCalls, appendedHeadings] using ih

theorem itemCountArgs_appendCalls (l : ChannelObserverList) :
    itemCountArgs (appendCalls l) = [] := by
  induction l with
  | nil => rfl
  | cons c l ih => simpa [appendCalls, itemCountArgs] using ih

theorem appendedHeadings_widthCalls (col n : Nat) :
    appendedHeadings (widthCalls col n) = [] := by
  induction n generalizing col with
  | zero => rfl
  | succ n ih => simpa [widthCalls, List.range'_succ, appendedHeadings] using ih (col + 1)

theorem itemCountArgs_widthCalls (col n : Nat) :
    itemCountArgs (widthCalls col n) = [] := by
  induction n generalizing col with
  | zero => rfl
  | succ n ih => simpa [widthCalls, List.range'_succ, itemCountArgs] using ih (col + 1)

theorem appendedHeadings_ctor (l : ChannelObserverList) (title : String) :
    appendedHeadings (ChannelObserverFrame.ctor l title).trace =
      "Sample" :: l.map columnLabel := by
  rw [ctor_eq]
  simp only [appendedHeadings_append, appendedHeadings_appendCalls,
    appendedHeadings_widthCalls]
  simp [appendedHeadings]

theorem itemCountArgs_ctor (l : ChannelObserverList) (title : String) :
    itemCountArgs (ChannelObserverFrame.ctor l title).trace = [maxNofSamples l] := by
  rw [ctor_eq]
  simp only [itemCountArgs_append, itemCountArgs_appendCalls,
    itemCountArgs_widthCalls]
  simp [itemCountArgs, foldl_updateSamples]

theorem columnLabel_eq_specLabel (c : Option Channel) : columnLabel c = specLabel c := by
  cases c with
  | none => rfl
  | some ch => rw [columnLabel_some]; rfl

theorem map_columnLabel (l : ChannelObserverList) : l.map columnLabel = l.map specLabel :=
  List.map_congr_left fun c _ => columnLabel_eq_specLabel c

/-- Closed form of the constructed state, for any `ObserverList` member. -/
theorem ctorWith_eq (leaves : ChannelObserverList → ChannelObserverList)
    (l : ChannelObserverList) (title : String) :
    ChannelObserverFrame.ctorWith leaves l title =
      { observer_list := leaves l
        frame :=
          { title := title
            icon := some "sub"
            list_view_ :=
              { columns := (({ heading := "Sample", width := wxLIST_DEFAULT_COL_WIDTH } : Column)
                  :: appendedColumns l).map autosized
                item_count := l.foldl updateSamples 0
                observer_list_ := some l } }
        trace := [Call.SetIcon "sub", Call.NewListView, Call.AppendColumn "Sample"] ++
          appendCalls l ++ [Call.ObserverList, Call.SetItemCount (l.foldl updateSamples 0)] ++
          widthCalls 0 (l.length + 1) } := by
  have hb : beforeAutosizeWith leaves l title =
      { observer_list := leaves l
        frame :=
          { title := title
            icon := some "sub"
            list_view_ :=
              { columns := ({ heading := "Sample", width := wxLIST_DEFAULT_COL_WIDTH } : Column)
                  :: appendedColumns l
                item_count := l.foldl updateSamples 0
                observer_list_ := some l } }
        trace := [Call.SetIcon "sub", Call.NewListView, Call.AppendColumn "Sample"] ++
          appendCalls l ++ [Call.ObserverList, Call.SetItemCount (l.foldl updateSamples 0)] } := by
    simp [beforeAutosizeWith, labelPass, entry, SetIcon, NewListView, AppendColumn, FromUTF8,
      foldl_loopBody, ObserverListWith, SetItemCount, newListView]
  rw [ChannelObserverFrame.ctorWith, autosizeLoop_eq _ 0 _ (by omega), hb]
  simp [GetColumnCount, appendedColumns]

/-! ## The claims -/

/-- C1: the row count the constructor passes to `SetItemCount` (the single
such call, and the row count the list view ends with) is the maximum of
`NofSamples()` over the present channels of the observer list; it is 0 for
the empty list and for every list of absent channels only. -/
theorem C1_row_count_is_max_samples (l : ChannelObserverList) (title : String) (n : Nat) :
    itemCountArgs (ChannelObserverFrame.ctor l title).trace = [maxNofSamples l] ∧
    rowCount (ChannelObserverFrame.ctor l title) = maxNofSamples l ∧
    rowCount (ChannelObserverFrame.ctor [] title) = 0 ∧
    rowCount (ChannelObserverFrame.ctor (List.replicate n none) title) = 0 := by
  refine ⟨itemCountArgs_ctor l title, rowCount_ctor l title, ?_, ?_⟩
  · rw [rowCount_ctor]; rfl
  · rw [rowCount_ctor, maxNofSamples_replicate_none]

/-- C2: for a present channel at position `i` of the observer list, the
column appended for it (column `i + 1`) is labelled `Name()` when `Unit()` is
empty and `Name()` followed by " [", `Unit()` and "]" otherwise. -/
theorem C2_present_channel_label (l : ChannelObserverList) (title : String) (i : Nat)
    (ch : Channel) (h : l[i]? = some (some ch)) :
    (columnLabels (ChannelObserverFrame.ctor l title))[i + 1]? =
        some (if ch.Unit = "" then ch.Name else ch.Name ++ " [" ++ ch.Unit ++ "]") ∧
    (appendedHeadings (ChannelObserverFrame.ctor l title).trace)[i + 1]? =
        some (if ch.Unit = "" then ch.Name else ch.Name ++ " [" ++ ch.Unit ++ "]") := by
  rw [columnLabels_ctor, appendedHeadings_ctor]
  simp [h, columnLabel_some]

theorem C2_present_channel_label_witness :
    exampleList[2]? = some (some ⟨"Temp", "C", 25⟩) ∧
    ((columnLabels (ChannelObserverFrame.ctor exampleList "Observer"))[2 + 1]? =
        some (if (Channel.mk "Temp" "C" 25).Unit = "" then (Channel.mk "Temp" "C" 25).Name
          else (Channel.mk "Temp" "C" 25).Name ++ " [" ++ (Channel.mk "Temp" "C" 25).Unit ++ "]") ∧
      (appendedHeadings (ChannelObserverFrame.ctor exampleList "Observer").trace)[2 + 1]? =
        some (if (Channel.mk "Temp" "C" 25).Unit = "" then (Channel.mk "Temp" "C" 25).Name
          else (Channel.mk "Temp" "C" 25).Name ++ " [" ++ (Channel.mk "Temp" "C" 25).Unit ++ "]")) :=
  ⟨by decide, C2_present_channel_label exampleList "Observer" 2 ⟨"Temp", "C", 25⟩ (by decide)⟩

/-- C3: for an absent channel at position `i` of the observer list, the
column appended for it (column `i + 1`) is labelled "Alien", and the channel
contributes nothing to the running maximum: one loop iteration on it leaves
`samples` as it was, and the row count is the same as for the list without
that position. -/
theorem C3_absent_channel_alien (l : ChannelObserverList) (title : String) (i : Nat)
    (h : l[i]? = some none) :
    (columnLabels (ChannelObserverFrame.ctor l title))[i + 1]? = some "Alien" ∧
    (appendedHeadings (ChannelObserverFrame.ctor l title).trace)[i + 1]? = some "Alien" ∧
    (∀ (samples : Nat) (st : State), (loopBody (samples, st) none).1 = samples) ∧
    rowCount (ChannelObserverFrame.ctor (l.eraseIdx i) title) =
      rowCount (ChannelObserverFrame.ctor l title) := by
  refine ⟨?_, ?_, ?_, ?_⟩
  · rw [columnLabels_ctor]
    simp [h, columnLabel]
  · rw [appendedHeadings_ctor]
    simp [h, columnLabel]
  · intro samples st
    rfl
  · rw [rowCount_ctor, rowCount_ctor, maxNofSamples_eraseIdx l i h]

theorem C3_absent_channel_alien_witness :
    exampleList[0]? = some none ∧
    ((columnLabels (ChannelObserverFrame.ctor exampleList "Observer"))[0 + 1]? = some "Alien" ∧
      (appendedHeadings (ChannelObserverFrame.ctor exampleList "Observer").trace)[0 + 1]? =
        some "Alien" ∧
      (∀ (samples : Nat) (st : State), (loopBody (samples, st) none).1 = samples) ∧
      rowCount (ChannelObserverFrame.ctor (exampleList.eraseIdx 0) "Observer") =
        rowCount (ChannelObserverFrame.ctor exampleList "Observer")) :=
  ⟨by decide, C3_absent_channel_alien exampleList "Observer" 0 (by decide)⟩

/-- C4: for an observer list of `n` channels the constructor appends exactly
`n + 1` columns: it makes `n + 1` `AppendColumn` calls and the list view ends
with `n + 1` columns. -/
theorem C4_column_count (l : ChannelObserverList) (title : String) :
    (appendedHeadings (ChannelObserverFrame.ctor l title).trace).length = l.length + 1 ∧
    GetColumnCount (ChannelObserverFrame.ctor l title) = l.length + 1 := by
  constructor
  · rw [appendedHeadings_ctor]
    simp
  · simp [ctor_eq, GetColumnCount, appendedColumns]

/-- C5: the column labels the constructor creates are "Sample" at column 0
followed by the labels of the channels in observer-list order, the label of
a channel being "Alien" when it is absent, its name when its unit is empty
and its name, " [", its unit and "]" otherwise: column `i + 1` carries the
label of the channel at position `i`, and there is no column beyond those.
The `AppendColumn` calls are made in that same order. -/
theorem C5_labels_in_list_order (l : ChannelObserverList) (title : String) (i : Nat) :
    columnLabels (ChannelObserverFrame.ctor l title) = "Sample" :: l.map specLabel ∧
    appendedHeadings (ChannelObserverFrame.ctor l title).trace =
      "Sample" :: l.map specLabel ∧
    (columnLabels (ChannelObserverFrame.ctor l title))[0]? = some "Sample" ∧
    (columnLabels (ChannelObserverFrame.ctor l title))[i + 1]? = (l[i]?).map specLabel := by
  rw [columnLabels_ctor, appendedHeadings_ctor, map_columnLabel]
  simp

/-- C6: for the list [absent, RPM with no unit and 10 samples, Temp with unit
C and 25 samples] the constructor creates the columns "Sample", "Alien",
"RPM", "Temp [C]" in that order and sets the row count to 25. -/
theorem C6_spec_example (title : String) :
    columnLabels (ChannelObserverFrame.ctor
        [none, some ⟨"RPM", "", 10⟩, some ⟨"Temp", "C", 25⟩] title) =
      ["Sample", "Alien", "RPM", "Temp [C]"] ∧
    appendedHeadings (ChannelObserverFrame.ctor
        [none, some ⟨"RPM", "", 10⟩, some ⟨"Temp", "C", 25⟩] title).trace =
      ["Sample", "Alien", "RPM", "Temp [C]"] ∧
    rowCount (ChannelObserverFrame.ctor
        [none, some ⟨"RPM", "", 10⟩, some ⟨"Temp", "C", 25⟩] title) = 25 ∧
    itemCountArgs (ChannelObserverFrame.ctor
        [none, some ⟨"RPM", "", 10⟩, some ⟨"Temp", "C", 25⟩] title).trace = [25] := by
  rw [columnLabels_ctor, appendedHeadings_ctor, rowCount_ctor, itemCountArgs_ctor]
  decide

/-- C7: when the constructor finishes, every column of the list view, from
index 0 (the "Sample" column) to the column count minus 1, has had its width
set to `wxLIST_AUTOSIZE_USEHEADER`, once each in index order, and all these
calls come after every `AppendColumn` call and the `SetItemCount` call: at
the start of the auto-size loop all `n + 1` columns exist and the row count
is set. -/
theorem C7_autosize_every_column (l : ChannelObserverList) (title : String) :
    columnWidths (ChannelObserverFrame.ctor l title) =
      List.replicate (GetColumnCount (ChannelObserverFrame.ctor l title))
        wxLIST_AUTOSIZE_USEHEADER ∧
    (ChannelObserverFrame.ctor l title).trace =
      (beforeAutosize l title).trace ++
        (List.range (GetColumnCount (ChannelObserverFrame.ctor l title))).map
          (fun col => Call.SetColumnWidth col wxLIST_AUTOSIZE_USEHEADER) ∧
    (beforeAutosize l title).trace =
      [Call.SetIcon "sub", Call.NewListView, Call.AppendColumn "Sample"] ++
        l.map (fun c => Call.AppendColumn (columnLabel c)) ++
        [Call.ObserverList, Call.SetItemCount (maxNofSamples l)] ∧
    GetColumnCount (beforeAutosize l title) =
      GetColumnCount (ChannelObserverFrame.ctor l title) ∧
    columnLabels (beforeAutosize l title) =
      columnLabels (ChannelObserverFrame.ctor l title) ∧
    rowCount (beforeAutosize l title) = maxNofSamples l := by
  have hb : beforeAutosize l title =
      { observer_list := l
        frame :=
          { title := title
            icon := some "sub"
            list_view_ :=
              { columns := ({ heading := "Sample", width := wxLIST_DEFAULT_COL_WIDTH } : Column)
                  :: appendedColumns l
                item_count := maxNofSamples l
                observer_list_ := some l } }
        trace := [Call.SetIcon "sub", Call.NewListView, Call.AppendColumn "Sample"] ++
          appendCalls l ++ [Call.ObserverList, Call.SetItemCount (maxNofSamples l)] } := by
    simp [beforeAutosize, labelPass, entry, SetIcon, NewListView, AppendColumn, FromUTF8,
      foldl_loopBody, ObserverList, SetItemCount, newListView, foldl_updateSamples]
  have hn : GetColumnCount (ChannelObserverFrame.ctor l title) = l.length + 1 := by
    simp [ctor_eq, GetColumnCount, appendedColumns]
  rw [hn, hb, ctor_eq]
  refine ⟨?_, ?_, ?_, ?_, ?_, ?_⟩
  · simp [columnWidths, autosized, appendedColumns, Function.comp_def, List.replicate_succ,
      List.eq_replicate_iff]
  · simp [widthCalls, List.range_eq_range', foldl_updateSamples]
  · simp [appendCalls]
  · simp [GetColumnCount, appendedColumns]
  · simp [columnLabels, autosized, appendedColumns, Function.comp_def]
  · simp [rowCount]

/-- C8 as stated fails: on the example list the label-and-maximum pass leaves
the observer list as it was, but the constructor changes more than the list
view's columns, row count and widths: the frame gets its icon (line 21) and
the list view is handed the observer list (line 42). -/
theorem C8_only_columns_rows_widths_counterexample :
    (labelPass (entry exampleList "Observer")).2.observer_list = exampleList ∧
    (entry exampleList "Observer").frame.icon = none ∧
    (ChannelObserverFrame.ctor exampleList "Observer").frame.icon = some "sub" ∧
    (entry exampleList "Observer").frame.list_view_.observer_list_ = none ∧
    (ChannelObserverFrame.ctor exampleList "Observer").frame.list_view_.observer_list_ =
      some exampleList ∧
    ¬ OnlyColumnsAndRowsChanged (entry exampleList "Observer")
        (ChannelObserverFrame.ctor exampleList "Observer") := by
  refine ⟨by decide, by decide, by decide, by decide, by decide, ?_⟩
  intro h
  exact absurd h.2.2.1 (by decide)

/-- C8, amended: the constructor only reads the observer list in its
label-and-maximum pass: from any state the pass yields the maximum sample
count and appends one labelled column per channel, and leaves everything
else, the observer list included, as it was. Over the whole constructor the
caller's list is written by nothing but the list view's `ObserverList`
member at line 42 (it ends as that member leaves it, and as it was when the
member only reads it). The state the constructor changes is the list view's
columns, row count and column widths, and besides them the frame's icon (the
"sub" icon) and the list view's retained observer list (the list given);
the rest of the frame is as on entry. -/
theorem C8_reads_list_changes_view_and_icon
    (leaves : ChannelObserverList → ChannelObserverList) (l : ChannelObserverList)
    (title : String) (st : State) :
    labelPass st =
      (maxNofSamples st.observer_list,
        { observer_list := st.observer_list
          frame :=
            { title := st.frame.title
              icon := st.frame.icon
              list_view_ :=
                { columns := st.frame.list_view_.columns ++
                    st.observer_list.map fun c =>
                      { heading := specLabel c, width := wxLIST_DEFAULT_COL_WIDTH }
                  item_count := st.frame.list_view_.item_count
                  observer_list_ := st.frame.list_view_.observer_list_ } }
          trace := st.trace ++ st.observer_list.map fun c => Call.AppendColumn (specLabel c) }) ∧
    (ChannelObserverFrame.ctorWith leaves l title).observer_list = leaves l ∧
    (ChannelObserverFrame.ctorWith leaves l title).frame =
      (ChannelObserverFrame.ctor l title).frame ∧
    ChannelObserverFrame.ctorWith id l title = ChannelObserverFrame.ctor l title ∧
    (ChannelObserverFrame.ctor l title).observer_list = (entry l title).observer_list ∧
    (ChannelObserverFrame.ctor l title).frame =
      { (entry l title).frame with
        icon := some "sub"
        list_view_ :=
          { columns := ("Sample" :: l.map specLabel).map fun h =>
              { heading := h, width := wxLIST_AUTOSIZE_USEHEADER }
            item_count := maxNofSamples l
            observer_list_ := some l } } := by
  refine ⟨?_, ?_, ?_, ?_, ?_, ?_⟩
  · rw [labelPass, foldl_loopBody, foldl_updateSamples]
    simp [appendedColumns, appendCalls, columnLabel_eq_specLabel]
  · rw [ctorWith_eq]
  · rw [ctorWith_eq, ctor_eq]
  · rw [ctorWith_eq, ctor_eq]
    rfl
  · rw [ctor_eq]
    rfl
  · rw [ctor_eq]
    simp [entry, appendedColumns, autosized, columnLabel_eq_specLabel, foldl_updateSamples,
      Function.comp_def]

/-- C9: the column label does not tell an absent channel from a present one,
nor two present channels apart: a present channel named "Alien" with empty
unit gets the label of an absent channel, and the present channels with name
"A [B]" and empty unit and with name "A" and unit "B" get the same label, so
the label function is not injective, neither on channel handles nor on the
(name, unit) pairs of present channels. -/
theorem C9_label_not_injective (n : Nat) :
    columnLabel (some ⟨"Alien", "", n⟩) = columnLabel none ∧
    columnLabels (ChannelObserverFrame.ctor [some ⟨"Alien", "", 0⟩] "Observer") =
      columnLabels (ChannelObserverFrame.ctor [none] "Observer") ∧
    columnLabel (some ⟨"A [B]", "", n⟩) = columnLabel (some ⟨"A", "B", n⟩) ∧
    columnLabels (ChannelObserverFrame.ctor [some ⟨"A [B]", "", 0⟩] "Observer") =
      columnLabels (ChannelObserverFrame.ctor [some ⟨"A", "B", 0⟩] "Observer") ∧
    (("A [B]", "") : String × String) ≠ ("A", "B") ∧
    ¬ Function.Injective columnLabel ∧
    ¬ Function.Injective (fun p : String × String => columnLabel (some ⟨p.1, p.2, n⟩)) := by
  have h1 : columnLabel (some ⟨"Alien", "", n⟩) = columnLabel none := by
    rw [columnLabel_some]
    simp only [if_true]
    decide
  have h2 : columnLabel (some ⟨"A [B]", "", n⟩) = columnLabel (some ⟨"A", "B", n⟩) := by
    rw [columnLabel_some, columnLabel_some]
    simp only [if_true]
    decide
  refine ⟨h1, by decide, h2, by decide, by decide, ?_, ?_⟩
  · intro hinj
    exact absurd (hinj h1) (by simp)
  · intro hinj
    have h := @hinj ("A [B]", "") ("A", "B") h2
    exact absurd h (by decide)

/-- C10: the row count the constructor sets does not depend on the order of
the channels: observer lists that are permutations of each other give the
same row count. Their column labels are the same up to order, and the order
can differ (as for the example list and its reverse). -/
theorem C10_row_count_order_independent (l₁ l₂ : ChannelObserverList) (title : String)
    (h : l₁.Perm l₂) :
    rowCount (ChannelObserverFrame.ctor l₁ title) =
      rowCount (ChannelObserverFrame.ctor l₂ title) ∧
    (columnLabels (ChannelObserverFrame.ctor l₁ title)).Perm
      (columnLabels (ChannelObserverFrame.ctor l₂ title)) ∧
    columnLabels (ChannelObserverFrame.ctor exampleList title) ≠
      columnLabels (ChannelObserverFrame.ctor exampleList.reverse title) := by
  refine ⟨?_, ?_, ?_⟩
  · rw [rowCount_ctor, rowCount_ctor, maxNofSamples_perm h]
  · rw [columnLabels_ctor, columnLabels_ctor]
    exact (h.map columnLabel).cons "Sample"
  · rw [columnLabels_ctor, columnLabels_ctor]
    decide

theorem C10_row_count_order_independent_witness :
    exampleList.Perm exampleList.reverse ∧
    (rowCount (ChannelObserverFrame.ctor exampleList "Observer") =
      rowCount (ChannelObserverFrame.ctor exampleList.reverse "Observer") ∧
    (columnLabels (ChannelObserverFrame.ctor exampleList "Observer")).Perm
      (columnLabels (ChannelObserverFrame.ctor exampleList.reverse "Observer")) ∧
    columnLabels (ChannelObserverFrame.ctor exampleList "Observer") ≠
      columnLabels (ChannelObserverFrame.ctor exampleList.reverse "Observer")) :=
  ⟨(List.reverse_perm exampleList).symm,
    C10_row_count_order_independent exampleList exampleList.reverse "Observer"
      (List.reverse_perm exampleList).symm⟩

end dbc.viewer
